import Mathlib

/-!
Shallow embedding of `nse_api.py` (class `NseAPI`), a thin client for the
NSE India JSON/CSV endpoints, together with proofs about the claims of the
specification.

Modelling conventions:
* Decoded JSON bodies are values of the inductive type `Json`; Python dicts
  keep insertion order, so objects are ordered association lists.
* A Python expression that can raise an uncaught exception is modelled in
  the `Except String` monad; the string is a stand-in for the exception text.
* A Python function that can `return None` returns an `Option`.
* HTTP traffic is cut at the response boundary: each operation takes the
  response's status code and decoded body as arguments.
* Machine floats of the source are modelled as exact rationals (`Rat`).
-/

namespace NseApi

/-- Decoded JSON values. Objects are insertion-ordered association lists,
mirroring Python dict semantics after `response.json()`. -/
inductive Json where
  | null
  | bool (b : Bool)
  | num (q : Rat)
  | str (s : String)
  | arr (elems : List Json)
  | obj (fields : List (String × Json))

/-- Python `d[k]`-style lookup on an object's field list: first binding wins. -/
def jlookup (fields : List (String × Json)) (k : String) : Option Json :=
  (fields.find? (fun kv => kv.1 == k)).map (fun kv => kv.2)

/-- Python `d.get(k, default)` on an object's field list. -/
def jlookupD (fields : List (String × Json)) (k : String) (d : Json) : Json :=
  (jlookup fields k).getD d

/-- Python subscript `j[k]`: `KeyError` on a missing key, `TypeError` when the
value is not a dict. -/
def jget (j : Json) (k : String) : Except String Json :=
  match j with
  | .obj fields =>
    match jlookup fields k with
    | some v => .ok v
    | none => .error ("KeyError: " ++ k)
  | _ => .error "TypeError: not subscriptable"

/-- Python truthiness of a decoded JSON value (`bool(x)`). -/
def Json.truthy : Json → Bool
  | .null => false
  | .bool b => b
  | .num q => !(q == 0)
  | .str s => !(s == "")
  | .arr l => !l.isEmpty
  | .obj f => !f.isEmpty

/-- Python `x == some_string`: equal only when `x` is that very string
(values of other types compare unequal, without raising). -/
def Json.isStrEq : Json → String → Bool
  | .str t, s => t == s
  | _, _ => false

/-- Run a fallible map over a list, stopping at the first raised exception,
as a Python `for`/comprehension over fallible element expressions does. -/
def mapExc (f : α → Except ε β) : List α → Except ε (List β)
  | [] => .ok []
  | a :: as =>
    match f a with
    | .error e => .error e
    | .ok b =>
      match mapExc f as with
      | .error e => .error e
      | .ok bs => .ok (b :: bs)

/-- Fallible filter-map, as a Python comprehension with an `if` clause:
`f` returns `none` to drop the element, raising aborts the whole loop. -/
def filterMapExc (f : α → Except ε (Option β)) : List α → Except ε (List β)
  | [] => .ok []
  | a :: as =>
    match f a with
    | .error e => .error e
    | .ok none => filterMapExc f as
    | .ok (some b) =>
      match filterMapExc f as with
      | .error e => .error e
      | .ok bs => .ok (b :: bs)

/-- Whether a modelled Python expression evaluates without raising. -/
def exceptOk : Except ε α → Bool
  | .ok _ => true
  | .error _ => false

/-! ## `get_all_stocks`

Source (`nse_api.py`, lines 30–53): requests
`equity-stockIndices?index={quote(index.upper())}` and returns
`[{"stock_symbol": stock['symbol'], "company_name": stock.get('meta', {}).get('companyName')}
  for stock in response if stock['symbol'] != index.upper()]`.
-/

/-- UTF-8 byte sequence of a code point, used by the percent-encoder. -/
def utf8Bytes (n : Nat) : List Nat :=
  if n < 0x80 then [n]
  else if n < 0x800 then [0xC0 + n / 0x40, 0x80 + n % 0x40]
  else if n < 0x10000 then
    [0xE0 + n / 0x1000, 0x80 + (n / 0x40) % 0x40, 0x80 + n % 0x40]
  else
    [0xF0 + n / 0x40000, 0x80 + (n / 0x1000) % 0x40, 0x80 + (n / 0x40) % 0x40,
     0x80 + n % 0x40]

/-- Uppercase hexadecimal digit, as `urllib.parse.quote` emits. -/
def hexDigit (n : Nat) : Char :=
  if n < 10 then Char.ofNat (48 + n) else Char.ofNat (55 + n)

/-- Treatment by `urllib.parse.quote` of one character: unreserved characters
(and the default-safe `/`) pass through, everything else is percent-encoded
byte by byte. -/
def quoteChar (c : Char) : List Char :=
  if c.isAlphanum || c ∈ ['_', '.', '-', '~', '/'] then [c]
  else (utf8Bytes c.toNat).flatMap (fun b => ['%', hexDigit (b / 16), hexDigit (b % 16)])

/-- Python `urllib.parse.quote` with default safe characters. -/
def urlQuote (s : String) : String :=
  String.mk (s.toList.flatMap quoteChar)

/-- The URL built by `get_all_stocks`: the index name is uppercased
(`index.upper()`; index names are ASCII, modelled with `String.toUpper`)
before URL-escaping. -/
def get_all_stocks_url (index : String) : String :=
  "https://www.nseindia.com/api/equity-stockIndices?index=" ++ urlQuote index.toUpper

/-- Python `stock.get('meta', {}).get('companyName')`: `AttributeError` when
the `meta` value is present but not a dict. -/
def metaCompany (fields : List (String × Json)) : Except String Json :=
  match jlookupD fields "meta" (.obj []) with
  | .obj mf => .ok (jlookupD mf "companyName" Json.null)
  | _ => .error "AttributeError: get"

/-- One step of the `get_all_stocks` comprehension for row `stock`, with `u`
the uppercased index name: the `if stock['symbol'] != index.upper()` filter
(evaluating `stock['symbol']` first, so a missing key raises), then the
record `{"stock_symbol": ..., "company_name": ...}`. -/
def stockRecord (u : String) (stock : Json) : Except String (Option (List (String × Json))) :=
  match stock with
  | .obj fields =>
    match jlookup fields "symbol" with
    | none => .error "KeyError: symbol"
    | some sym =>
      if sym.isStrEq u then .ok none
      else
        match metaCompany fields with
        | .error e => .error e
        | .ok cn => .ok (some [("stock_symbol", sym), ("company_name", cn)])
  | _ => .error "TypeError: not subscriptable"

/-- Function `NseAPI.get_all_stocks`, cut at the decoded `data` array of the
constituents response. -/
def get_all_stocks (index : String) (data : List Json) :
    Except String (List (List (String × Json))) :=
  filterMapExc (stockRecord index.toUpper) data

/-- A constituents row on which `get_all_stocks` cannot raise: a dict with a
`symbol` key, whose `meta` value (when present) is a dict. -/
def rowOkb : Json → Bool
  | .obj fields =>
    (jlookup fields "symbol").isSome &&
      (match jlookupD fields "meta" (.obj []) with
       | .obj _ => true
       | _ => false)
  | _ => false

/-- Company name of a row with a well-formed (or absent) `meta` dict, total
version used by the spec-side description `recordOf`. -/
def metaCompanyD (fields : List (String × Json)) : Json :=
  match jlookupD fields "meta" (.obj []) with
  | .obj mf => jlookupD mf "companyName" Json.null
  | _ => Json.null

/-- Spec-side description of `get_all_stocks` on one row, following the
spec's words: one `{stock_symbol, company_name}` record per row, except that
the row whose symbol equals the uppercased index name `u` is excluded. -/
def recordOf (u : String) (stock : Json) : Option (List (String × Json)) :=
  match stock with
  | .obj fields =>
    let sym := (jlookup fields "symbol").getD Json.null
    if sym.isStrEq u then none
    else some [("stock_symbol", sym), ("company_name", metaCompanyD fields)]
  | _ => none

/-! ## `index_data`

Source (`nse_api.py`, lines 55–116): returns `None` on non-200 status,
otherwise builds, for each `datum` of the body's `data` array, a dict with
the fixed key list below (renaming `yearHigh`/`yearLow` to
`52W_High`/`52W_Low` and appending the body's `timestamp` as
`last_updated_at`), and appends `company_name` from `datum['meta']`
(unguarded subscript) on every row but the first.
-/

/-- Output key / source key pairs of the `temp_dict` literal of `index_data`,
in the dict literal's insertion order. -/
def indexFieldMap : List (String × String) :=
  [("symbol", "symbol"), ("open", "open"), ("dayHigh", "dayHigh"),
   ("dayLow", "dayLow"), ("lastPrice", "lastPrice"),
   ("previousClose", "previousClose"), ("change", "change"),
   ("pChange", "pChange"), ("52W_High", "yearHigh"), ("52W_Low", "yearLow"),
   ("totalTradedVolume", "totalTradedVolume"),
   ("totalTradedValue", "totalTradedValue"),
   ("perChange365d", "perChange365d"), ("perChange30d", "perChange30d")]

/-- The canonical output field names of `index_data` (without the
`company_name` key that non-first rows also carry). -/
def indexKeys : List String :=
  ["symbol", "open", "dayHigh", "dayLow", "lastPrice", "previousClose",
   "change", "pChange", "52W_High", "52W_Low", "totalTradedVolume",
   "totalTradedValue", "perChange365d", "perChange30d", "last_updated_at"]

/-- One `temp_dict` entry: output key `p.1` paired with `datum[p.2]`. -/
def indexEntry (d : Json) (p : String × String) : Except String (String × Json) :=
  match jget d p.2 with
  | .error e => .error e
  | .ok v => .ok (p.1, v)

/-- One iteration of the `index_data` loop: build `temp_dict` for `datum`
`d` at position `i` (`ts` is the body's `timestamp` value); on `i ≠ 0`
additionally read `d['meta'].get("companyName")`, where the `['meta']`
subscript is unguarded. -/
def index_datum (ts : Json) (i : Nat) (d : Json) : Except String (List (String × Json)) :=
  match mapExc (indexEntry d) indexFieldMap with
  | .error e => .error e
  | .ok pairs =>
    if i ≠ 0 then
      match jget d "meta" with
      | .error e => .error e
      | .ok (.obj mf) =>
        .ok ((pairs ++ [("last_updated_at", ts)]) ++
             [("company_name", jlookupD mf "companyName" Json.null)])
      | .ok _ => .error "AttributeError: get"
    else
      .ok (pairs ++ [("last_updated_at", ts)])

/-- Function `NseAPI.index_data`, cut at the response's status code and decoded JSON
body. -/
def index_data (status : Nat) (body : Json) :
    Except String (Option (List (List (String × Json)))) :=
  if status ≠ 200 then .ok none
  else
    match jget body "timestamp" with
    | .error e => .error e
    | .ok ts =>
      match jget body "data" with
      | .error e => .error e
      | .ok (.arr data) =>
        match mapExc (fun p => index_datum ts p.1 p.2) data.enum with
        | .error e => .error e
        | .ok recs => .ok (some recs)
      | .ok _ => .error "TypeError: not iterable"

/-- Concrete index-snapshot `data` array used by the C2 witness: the index
row itself followed by one constituent row carrying a `meta` dict. -/
def c2data : List Json :=
  [Json.obj
     [("symbol", .str "NIFTY 50"), ("open", .num 1), ("dayHigh", .num 2),
      ("dayLow", .num 3), ("lastPrice", .num 4), ("previousClose", .num 5),
      ("change", .num 6), ("pChange", .num 7), ("yearHigh", .num 8),
      ("yearLow", .num 9), ("totalTradedVolume", .num 10),
      ("totalTradedValue", .num 11), ("perChange365d", .num 12),
      ("perChange30d", .num 13)],
   Json.obj
     [("symbol", .str "TCS"), ("open", .num 21), ("dayHigh", .num 22),
      ("dayLow", .num 23), ("lastPrice", .num 24), ("previousClose", .num 25),
      ("change", .num 26), ("pChange", .num 27), ("yearHigh", .num 28),
      ("yearLow", .num 29), ("totalTradedVolume", .num 30),
      ("totalTradedValue", .num 31), ("perChange365d", .num 32),
      ("perChange30d", .num 33),
      ("meta", .obj [("companyName", .str "Tata Consultancy")])]]

/-- Concrete index-snapshot body used by the C2 witness. -/
def c2body : Json :=
  .obj [("timestamp", .str "10-Oct-2025 16:00:00"), ("data", .arr c2data)]

/-- The records `index_data` produces on `c2body`. -/
def c2recs : List (List (String × Json)) :=
  [[("symbol", .str "NIFTY 50"), ("open", .num 1), ("dayHigh", .num 2),
    ("dayLow", .num 3), ("lastPrice", .num 4), ("previousClose", .num 5),
    ("change", .num 6), ("pChange", .num 7), ("52W_High", .num 8),
    ("52W_Low", .num 9), ("totalTradedVolume", .num 10),
    ("totalTradedValue", .num 11), ("perChange365d", .num 12),
    ("perChange30d", .num 13),
    ("last_updated_at", .str "10-Oct-2025 16:00:00")],
   [("symbol", .str "TCS"), ("open", .num 21), ("dayHigh", .num 22),
    ("dayLow", .num 23), ("lastPrice", .num 24), ("previousClose", .num 25),
    ("change", .num 26), ("pChange", .num 27), ("52W_High", .num 28),
    ("52W_Low", .num 29), ("totalTradedVolume", .num 30),
    ("totalTradedValue", .num 31), ("perChange365d", .num 32),
    ("perChange30d", .num 33),
    ("last_updated_at", .str "10-Oct-2025 16:00:00"),
    ("company_name", .str "Tata Consultancy")]]

/-! ## `get_stock_data`

Source (`nse_api.py`, lines 119–162): on 200 status with a truthy
`info` entry, builds `final_dict` by direct renames of nested fields of the
body, rounding `change` and `pChange` to 2 decimal places; otherwise
returns `None`.
-/

/-- Banker's rounding to an integer, as Python's `round` on an exact value. -/
def roundHalfEven (x : Rat) : Int :=
  let n := x.floor
  if x - n < 1/2 then n
  else if x - n > 1/2 then n + 1
  else if n % 2 = 0 then n else n + 1

/-- Python `round(x, 2)` on an exact rational. -/
def round2 (q : Rat) : Rat := (roundHalfEven (q * 100) : Rat) / 100

/-- Python `round(x, 2)` on a JSON value: `TypeError` on non-numbers. -/
def jround2 : Json → Except String Json
  | .num q => .ok (.num (round2 q))
  | _ => .error "TypeError: round"

/-- Expression `result['info'].get('industry')` of `get_stock_data`. -/
def infoIndustry : Json → Except String Json
  | .obj inf => .ok (jlookupD inf "industry" Json.null)
  | _ => .error "AttributeError: get"

/-- Function `NseAPI.get_stock_data`, cut at the response's status code and decoded
JSON body. The `let` chain evaluates the nested subscripts in the order the
`final_dict` literal does. -/
def get_stock_data (status : Nat) (body : Json) :
    Except String (Option (List (String × Json))) :=
  if status = 200 then
    match body with
    | .obj bf =>
      if (jlookupD bf "info" Json.null).truthy then do
        let info ← jget body "info"
        let sym ← jget info "symbol"
        let cname ← jget info "companyName"
        let industry ← infoIndustry info
        let metadata ← jget body "metadata"
        let listing ← jget metadata "listingDate"
        let priceInfo ← jget body "priceInfo"
        let openp ← jget priceInfo "open"
        let lastp ← jget priceInfo "lastPrice"
        let prevc ← jget priceInfo "previousClose"
        let idhl ← jget priceInfo "intraDayHighLow"
        let highp ← jget idhl "max"
        let lowp ← jget idhl "min"
        let ch ← jget priceInfo "change"
        let chr2 ← jround2 ch
        let pch ← jget priceInfo "pChange"
        let pchr2 ← jround2 pch
        let whl ← jget priceInfo "weekHighLow"
        let whd ← jget whl "maxDate"
        let wh ← jget whl "max"
        let wld ← jget whl "minDate"
        let wl ← jget whl "min"
        let pre ← jget body "preOpenMarket"
        let ttv ← jget pre "totalTradedVolume"
        let tbq ← jget pre "totalBuyQuantity"
        let tsq ← jget pre "totalSellQuantity"
        let lut ← jget metadata "lastUpdateTime"
        pure (some
          [("symbol", sym), ("company_name", cname), ("industry", industry),
           ("listingDate", listing), ("open_price", openp),
           ("last_price", lastp), ("previous_close", prevc),
           ("high_price", highp), ("low_price", lowp), ("change", chr2),
           ("pChange", pchr2), ("52w_high_date", whd), ("52w_high", wh),
           ("52w_low_date", wld), ("52w_low", wl),
           ("total_traded_volume", ttv), ("total_buy_quantity", tbq),
           ("total_sell_quantity", tsq), ("last_update_time", lut)])
      else .ok none
    | _ => .error "AttributeError: get"
  else .ok none

/-- Concrete `info` section of the C9 witness body. -/
def c9info : Json :=
  .obj [("symbol", .str "TCS"), ("companyName", .str "Tata Consultancy"),
        ("industry", .str "IT")]

/-- Concrete `metadata` section of the C9 witness body. -/
def c9metadata : Json :=
  .obj [("listingDate", .str "2004-08-25"),
        ("lastUpdateTime", .str "10-Oct-2025 16:00:00")]

/-- Concrete `intraDayHighLow` section of the C9 witness body. -/
def c9idhl : Json := .obj [("max", .num 12), ("min", .num 8)]

/-- Concrete `weekHighLow` section of the C9 witness body. -/
def c9whl : Json :=
  .obj [("maxDate", .str "2025-01-02"), ("max", .num 20),
        ("minDate", .str "2024-06-04"), ("min", .num 5)]

/-- Concrete `priceInfo` section of the C9 witness body. -/
def c9priceInfo : Json :=
  .obj [("open", .num 10), ("lastPrice", .num 11), ("previousClose", .num 9),
        ("intraDayHighLow", c9idhl), ("change", .num (1/40)),
        ("pChange", .num (1/3)), ("weekHighLow", c9whl)]

/-- Concrete `preOpenMarket` section of the C9 witness body. -/
def c9pre : Json :=
  .obj [("totalTradedVolume", .num 100), ("totalBuyQuantity", .num 50),
        ("totalSellQuantity", .num 60)]

/-- Concrete quote body of the C9 witness. -/
def c9body : List (String × Json) :=
  [("info", c9info), ("metadata", c9metadata), ("priceInfo", c9priceInfo),
   ("preOpenMarket", c9pre)]

/-! ## `get_historical_data`

Source (`nse_api.py`, lines 164–214): on 200 status, parse the body as CSV
with `pd.read_csv(..., thousands=",")`, rename the columns to the fixed
14-name list (raising if the count differs), prepend a constant `SYMBOL`
column holding the symbol argument as passed, parse the `DATE` column with
`format="%d-%b-%Y"` into dates, and coerce the `VWAP` column with
`pd.to_numeric(errors='coerce')`; any exception in that block is replaced
by `Exception(f"Error: {response.json().get('showMessage')}")`. On non-200
status, print the raw body and return `None`.
-/

/-- A cell of the modelled data frame: a number, a string, a date (from
`to_datetime(...).dt.date`), or missing (`NaN`/`NaT`). -/
inductive Cell where
  | num (q : Rat)
  | str (s : String)
  | date (y m d : Nat)
  | nan
deriving DecidableEq, Repr

/-- The modelled pandas `DataFrame`: named columns over rows of cells. -/
structure DataFrame where
  header : List String
  rows : List (List Cell)
deriving DecidableEq, Repr

/-- Split a character list at every occurrence of `c` (separators are not
kept; `n` separators yield `n + 1` chunks). -/
def splitOnChar (c : Char) : List Char → List (List Char)
  | [] => [[]]
  | a :: as =>
    let r := splitOnChar c as
    if a = c then [] :: r
    else
      match r with
      | [] => [[a]]
      | f :: rest => (a :: f) :: rest

/-- CSV field splitter for one record, with pandas' default double-quote
handling on well-formed fields: an unquoted comma separates fields, a
quoted section protects commas, `""` inside quotes is a literal quote.
`acc` is the current field, reversed. -/
def csvFields : List Char → Bool → List Char → List String
  | [], _, acc => [String.mk acc.reverse]
  | ',' :: rest, false, acc => String.mk acc.reverse :: csvFields rest false []
  | '"' :: '"' :: rest, true, acc => csvFields rest true ('"' :: acc)
  | '"' :: rest, inQ, acc => csvFields rest (!inQ) acc
  | c :: rest, inQ, acc => csvFields rest inQ (c :: acc)

/-- Fields of one CSV record. -/
def csvSplit (l : List Char) : List String := csvFields l false []

/-- Records of a CSV text: newline-separated, tolerating `\r\n`, skipping
blank lines (`skip_blank_lines=True`). -/
def csvLines (text : String) : List (List Char) :=
  ((splitOnChar '\n' text.toList).map
      (fun l => if l.getLast? = some '\r' then l.dropLast else l)).filter
    (fun l => !l.isEmpty)

/-- Numeric value of a nonempty all-digit character list. -/
def digitsVal? (cs : List Char) : Option Nat :=
  if cs.isEmpty then none
  else if cs.all Char.isDigit then
    some (cs.foldl (fun a c => a * 10 + (c.toNat - 48)) 0)
  else none

/-- Value of a digit list (0 when empty), for the integer and fractional
parts of a decimal literal. -/
def natOfDigits (cs : List Char) : Nat :=
  cs.foldl (fun a c => a * 10 + (c.toNat - 48)) 0

/-- Unsigned decimal literal (`123`, `1.5`, `.5`, `5.`). -/
def parseUnsignedRat? (cs : List Char) : Option Rat :=
  match splitOnChar '.' cs with
  | [ip] => (digitsVal? ip).map (fun n => (n : Rat))
  | [ip, fp] =>
    if ip.isEmpty && fp.isEmpty then none
    else if ip.all Char.isDigit && fp.all Char.isDigit then
      some ((natOfDigits ip : Rat) + (natOfDigits fp : Rat) / ((10 : Rat) ^ fp.length))
    else none
  | _ => none

/-- Optionally signed decimal literal. -/
def parseRat? : List Char → Option Rat
  | '-' :: rest => (parseUnsignedRat? rest).map Neg.neg
  | '+' :: rest => parseUnsignedRat? rest
  | cs => parseUnsignedRat? cs

/-- Numeric conversion applied by `read_csv` with `thousands=","`: drop the
separator characters, then parse as a decimal literal. -/
def parseNumTh? (s : String) : Option Rat :=
  parseRat? (s.toList.filter (fun c => !(c == ',')))

/-- Type inference of `read_csv` for one column: the column becomes numeric
exactly when every cell is empty or parses as a number (with thousands
separators removed). -/
def colIsNumeric (cells : List String) : Bool :=
  cells.all (fun s => s.isEmpty || (parseNumTh? s).isSome)

/-- The cell stored for source text `s` in a column whose inferred
numeric-ness is `numeric`: empty cells are missing; numeric columns hold
parsed numbers; object columns keep the text. -/
def mkCell (numeric : Bool) (s : String) : Cell :=
  if s.isEmpty then Cell.nan
  else if numeric then
    match parseNumTh? s with
    | some q => Cell.num q
    | none => Cell.nan
  else Cell.str s

/-- Tokenizer treatment of one data record against a header of `n` fields:
more fields than the header raise; missing trailing fields are filled (as
empty text, becoming missing values). -/
def histSrcRow (n : Nat) (fields : List String) : Except String (List String) :=
  if n < fields.length then .error "ParserError: Error tokenizing data"
  else .ok (fields ++ List.replicate (n - fields.length) "")

/-- Model of `pd.read_csv(StringIO(text), thousands=",")`: first record is the
header; per-column dtype inference as in `colIsNumeric`/`mkCell`; an empty
text raises. -/
def readCsv (text : String) : Except String DataFrame :=
  match csvLines text with
  | [] => .error "EmptyDataError: No columns to parse from file"
  | headerLine :: dataLines =>
    let header := csvSplit headerLine
    let n := header.length
    match mapExc (histSrcRow n) (dataLines.map csvSplit) with
    | .error e => .error e
    | .ok rawRows =>
      let numericCols :=
        (List.range n).map (fun j => colIsNumeric (rawRows.map (fun r => r.getD j "")))
      .ok { header := header,
            rows := rawRows.map (fun r =>
              (List.range n).map (fun j => mkCell (numericCols.getD j false) (r.getD j ""))) }

/-- The 14 column names assigned by `df.columns = [...]`. -/
def histColumns : List String :=
  ["DATE", "SERIES", "OPEN", "HIGH", "LOW", "PREV_CLOSE", "LTP", "CLOSE",
   "VWAP", "52W_H", "52W_L", "VOLUME", "VALUE", "NO_OF_TRADES"]

/-- Assignment `df.columns = names`: raises a length-mismatch `ValueError` unless the
frame has exactly as many columns as names. -/
def setColumns (df : DataFrame) (names : List String) : Except String DataFrame :=
  if df.header.length = names.length then .ok { header := names, rows := df.rows }
  else .error "ValueError: Length mismatch"

/-- Method `df.insert(0, name, value)` with a constant value. -/
def insertCol (df : DataFrame) (name : String) (c : Cell) : DataFrame :=
  { header := name :: df.header, rows := df.rows.map (fun r => c :: r) }

/-- Month abbreviations of `%b` (`strptime` matches case-insensitively). -/
def monthAbbrevs : List (String × Nat) :=
  [("jan", 1), ("feb", 2), ("mar", 3), ("apr", 4), ("may", 5), ("jun", 6),
   ("jul", 7), ("aug", 8), ("sep", 9), ("oct", 10), ("nov", 11), ("dec", 12)]

/-- Month number of a `%b` component. -/
def monthNum? (cs : List Char) : Option Nat :=
  (monthAbbrevs.find? (fun p => p.1 == String.mk (cs.map Char.toLower))).map Prod.snd

/-- Gregorian leap year. -/
def isLeap (y : Nat) : Bool :=
  (y % 4 == 0 && !(y % 100 == 0)) || y % 400 == 0

/-- Days of month `m` in year `y`. -/
def daysInMonth (y m : Nat) : Nat :=
  if m = 2 then (if isLeap y then 29 else 28)
  else if m = 4 ∨ m = 6 ∨ m = 9 ∨ m = 11 then 30
  else 31

/-- Strict `strptime(s, "%d-%b-%Y")`, as a calendar date `(y, m, d)`:
a 1–2 digit day, a month abbreviation, an up-to-4-digit year, with the day
valid for that month. -/
def parseDMY? (s : String) : Option (Nat × Nat × Nat) :=
  match splitOnChar '-' s.toList with
  | [dcs, mcs, ycs] =>
    match digitsVal? dcs, monthNum? mcs, digitsVal? ycs with
    | some d, some m, some y =>
      if dcs.length ≤ 2 ∧ ycs.length ≤ 4 ∧ 1 ≤ y ∧ 1 ≤ d ∧ d ≤ daysInMonth y m
      then some (y, m, d) else none
    | _, _, _ => none
  | _ => none

/-- Effect of `pd.to_datetime(cell, format="%d-%b-%Y").dt.date` on one cell: strings
must match the format, missing stays missing (`NaT`), anything else
raises. -/
def dateCell? : Cell → Option Cell
  | .str s => (parseDMY? s).map (fun t => Cell.date t.1 t.2.1 t.2.2)
  | .nan => some .nan
  | _ => none

/-- One row of the `DATE` column assignment, `j` the column's index. -/
def dateRowStep (j : Nat) (r : List Cell) : Except String (List Cell) :=
  match dateCell? (r.getD j Cell.nan) with
  | some c => .ok (r.set j c)
  | none => .error "ValueError: to_datetime"

/-- Assignment `df["DATE"] = pd.to_datetime(df["DATE"], format="%d-%b-%Y").dt.date`. -/
def setDateColumn (df : DataFrame) : Except String DataFrame :=
  match df.header.findIdx? (fun h => h == "DATE") with
  | none => .error "KeyError: DATE"
  | some j =>
    match mapExc (dateRowStep j) df.rows with
    | .error e => .error e
    | .ok rows => .ok { header := df.header, rows := rows }

/-- Effect of `pd.to_numeric(cell, errors='coerce')` on one cell (no thousands
handling here: an unparseable string becomes missing). -/
def toNumericCoerce : Cell → Cell
  | .num q => .num q
  | .str s =>
    match parseRat? s.toList with
    | some q => .num q
    | none => .nan
  | .date _ _ _ => .nan
  | .nan => .nan

/-- One row of the `VWAP` column assignment, `j` the column's index. -/
def vwapRow (j : Nat) (r : List Cell) : List Cell :=
  r.set j (toNumericCoerce (r.getD j Cell.nan))

/-- Assignment `df['VWAP'] = pd.to_numeric(df['VWAP'], errors='coerce')`. -/
def coerceVWAP (df : DataFrame) : Except String DataFrame :=
  match df.header.findIdx? (fun h => h == "VWAP") with
  | none => .error "KeyError: VWAP"
  | some j => .ok { header := df.header, rows := df.rows.map (vwapRow j) }

/-- The `try` block of `get_historical_data` after the request: read the
CSV, rename columns, prepend the symbol column, parse dates, coerce VWAP. -/
def historicalPipeline (symbol : String) (text : String) : Except String DataFrame :=
  match readCsv text with
  | .error e => .error e
  | .ok df0 =>
    match setColumns df0 histColumns with
    | .error e => .error e
    | .ok df1 =>
      match setDateColumn (insertCol df1 "SYMBOL" (Cell.str symbol)) with
      | .error e => .error e
      | .ok df3 => coerceVWAP df3

mutual

/-- Python `repr` of a decoded JSON value. -/
def pyRepr : Json → String
  | .null => "None"
  | .bool true => "True"
  | .bool false => "False"
  | .num q => toString q
  | .str s => "'" ++ s ++ "'"
  | .arr l => "[" ++ pyReprList l ++ "]"
  | .obj f => "\x7b" ++ pyReprFields f ++ "\x7d"

/-- Python `repr` of the elements of a list, comma-separated. -/
def pyReprList : List Json → String
  | [] => ""
  | [j] => pyRepr j
  | j :: rest => pyRepr j ++ ", " ++ pyReprList rest

/-- Python `repr` of the entries of a dict, comma-separated. -/
def pyReprFields : List (String × Json) → String
  | [] => ""
  | [(k, v)] => "'" ++ k ++ "': " ++ pyRepr v
  | (k, v) :: rest => "'" ++ k ++ "': " ++ pyRepr v ++ ", " ++ pyReprFields rest

end

/-- Python `str` of a decoded JSON value, as an f-string renders it. -/
def pyStr : Json → String
  | .str s => s
  | j => pyRepr j

/-- Function `NseAPI.get_historical_data`, cut at the response: its status code, its
body text, and the body's JSON decode (`none` when `response.json()` would
raise). Returns the frame (or `None`) together with the list of printed
diagnostic lines. -/
def get_historical_data (symbol : String) (status : Nat) (body : String)
    (bodyJson : Option Json) : Except String (Option DataFrame × List String) :=
  if status = 200 then
    match historicalPipeline symbol body with
    | .ok df => .ok (some df, [])
    | .error _ =>
      match bodyJson with
      | some (Json.obj fields) =>
        .error ("Error: " ++ pyStr (jlookupD fields "showMessage" Json.null))
      | some _ => .error "AttributeError: get"
      | none => .error "JSONDecodeError"
  else .ok (none, [body])

/-- Concrete historical CSV body of the C1 witness: 14 columns, one data
row dated `01-Jan-2023`, with a quoted thousands-separated VWAP cell. -/
def c1body : String :=
  "a,b,c,d,e,f,g,h,i,j,k,l,m,n\n01-Jan-2023,EQ,1,2,3,4,5,6,\"1,234\",7,8,9,10,11\n"

/-- The frame `readCsv` produces on `c1body`. -/
def c1df0 : DataFrame :=
  { header := ["a", "b", "c", "d", "e", "f", "g", "h", "i", "j", "k", "l", "m", "n"],
    rows := [[.str "01-Jan-2023", .str "EQ", .num 1, .num 2, .num 3, .num 4,
              .num 5, .num 6, .num 1234, .num 7, .num 8, .num 9,
              .num 10, .num 11]] }

/-- The frame `get_historical_data "Tcs"` produces on `c1body`. -/
def c1df : DataFrame :=
  { header := ["SYMBOL", "DATE", "SERIES", "OPEN", "HIGH", "LOW",
               "PREV_CLOSE", "LTP", "CLOSE", "VWAP", "52W_H", "52W_L",
               "VOLUME", "VALUE", "NO_OF_TRADES"],
    rows := [[.str "Tcs", .date 2023 1 1, .str "EQ", .num 1, .num 2, .num 3,
              .num 4, .num 5, .num 6, .num 1234, .num 7, .num 8,
              .num 9, .num 10, .num 11]] }

/-- Concrete historical CSV body of the C6 counterexample: the `OPEN`
column holds `1.5` and the malformed cell `abc`. -/
def c6body : String :=
  "a,b,c,d,e,f,g,h,i,j,k,l,m,n\n01-Jan-2023,EQ,1.5,2,3,4,5,6,7,8,9,10,11,12\n02-Jan-2023,EQ,abc,2,3,4,5,6,7,8,9,10,11,12\n"

/-- The frame `get_historical_data "TCS"` produces on `c6body`: the `OPEN`
column keeps both `"1.5"` and `"abc"` as strings. -/
def c6df : DataFrame :=
  { header := ["SYMBOL", "DATE", "SERIES", "OPEN", "HIGH", "LOW",
               "PREV_CLOSE", "LTP", "CLOSE", "VWAP", "52W_H", "52W_L",
               "VOLUME", "VALUE", "NO_OF_TRADES"],
    rows := [[.str "TCS", .date 2023 1 1, .str "EQ", .str "1.5", .num 2,
              .num 3, .num 4, .num 5, .num 6, .num 7, .num 8, .num 9,
              .num 10, .num 11, .num 12],
             [.str "TCS", .date 2023 1 2, .str "EQ", .str "abc", .num 2,
              .num 3, .num 4, .num 5, .num 6, .num 7, .num 8, .num 9,
              .num 10, .num 11, .num 12]] }

/-! ## Theorems -/

theorem mapExc_ok_length {f : α → Except ε β} {l : List α} {l' : List β}
    (h : mapExc f l = .ok l') : l'.length = l.length := by
  induction l generalizing l' with
  | nil => simp [mapExc] at h; simp [← h]
  | cons a as ih =>
    simp only [mapExc] at h
    cases hfa : f a with
    | error e => rw [hfa] at h; exact absurd h (by simp)
    | ok b =>
      rw [hfa] at h
      cases hrec : mapExc f as with
      | error e => rw [hrec] at h; exact absurd h (by simp)
      | ok bs =>
        rw [hrec] at h
        cases h
        simpa using ih hrec

theorem mapExc_ok_getD {f : α → Except ε β} {l : List α} {l' : List β}
    (h : mapExc f l = .ok l') (i : Nat) (hi : i < l.length) (dα : α) (dβ : β) :
    f (l.getD i dα) = .ok (l'.getD i dβ) := by
  induction l generalizing l' i with
  | nil => exact absurd hi (by simp)
  | cons a as ih =>
    simp only [mapExc] at h
    cases hfa : f a with
    | error e => rw [hfa] at h; exact absurd h (by simp)
    | ok b =>
      rw [hfa] at h
      cases hrec : mapExc f as with
      | error e => rw [hrec] at h; exact absurd h (by simp)
      | ok bs =>
        rw [hrec] at h
        cases h
        cases i with
        | zero => simpa using hfa
        | succ j =>
          simp only [List.getD_cons_succ]
          exact ih hrec j (by simpa using hi)

theorem mapExc_ok_mem {f : α → Except ε β} {l : List α} {l' : List β}
    (h : mapExc f l = .ok l') (a : α) (ha : a ∈ l) : ∃ b, f a = .ok b := by
  induction l generalizing l' with
  | nil => cases ha
  | cons x as ih =>
    simp only [mapExc] at h
    cases hfa : f x with
    | error e => rw [hfa] at h; exact absurd h (by simp)
    | ok b =>
      rw [hfa] at h
      cases hrec : mapExc f as with
      | error e => rw [hrec] at h; exact absurd h (by simp)
      | ok bs =>
        rcases List.mem_cons.mp ha with rfl | hmem
        · exact ⟨b, hfa⟩
        · exact ih hrec hmem

/-! ## `get_indices`

Source (`nse_api.py`, lines 16–28): decodes the equity-master body and
returns `[symbol for symbols in response.keys() for symbol in response[symbols]]`.
-/

/-- Dict subscript used by the comprehension: first binding for the key. -/
def dictGet (response : List (String × Json)) (k : String) : Option Json :=
  jlookup response k

/-- One step `for symbol in response[symbols]` of the comprehension: iterating
a JSON array yields its elements; a string yields its characters; a dict
yields its keys; anything else raises `TypeError`. A missing key raises
`KeyError` (unreachable when `k` comes from the dict itself). -/
def iterValue (response : List (String × Json)) (k : String) : Except String (List Json) :=
  match dictGet response k with
  | some (.arr elems) => .ok elems
  | some (.str s) => .ok (s.toList.map (fun c => Json.str (String.mk [c])))
  | some (.obj f) => .ok (f.map (fun kv => Json.str kv.1))
  | some _ => .error "TypeError: not iterable"
  | none => .error ("KeyError: " ++ k)

/-- Function `NseAPI.get_indices`, cut at the decoded JSON body of the
equity-master response. -/
def get_indices (response : List (String × Json)) : Except String (List Json) :=
  (mapExc (iterValue response) (response.map Prod.fst)).map List.flatten

theorem get_indices_nodup_aux (m : List (String × List Json))
    (full : List (String × Json))
    (hfull : ∀ p ∈ m, jlookup full p.1 = some (.arr p.2)) :
    mapExc (iterValue full) (m.map Prod.fst) = .ok (m.map Prod.snd) := by
  induction m with
  | nil => simp [mapExc]
  | cons p rest ih =>
    have hp := hfull p (List.mem_cons_self p rest)
    simp only [List.map_cons, mapExc, iterValue, dictGet, hp]
    rw [ih (fun q hq => hfull q (List.mem_cons_of_mem p hq))]

theorem jlookup_of_nodup (m : List (String × List Json))
    (hn : (m.map Prod.fst).Nodup) (p : String × List Json) (hp : p ∈ m) :
    jlookup (m.map (fun q => (q.1, Json.arr q.2))) p.1 = some (.arr p.2) := by
  induction m with
  | nil => cases hp
  | cons q rest ih =>
    simp only [List.map_cons, List.nodup_cons] at hn
    rcases List.mem_cons.mp hp with rfl | hmem
    · simp [jlookup, List.find?]
    · have hne : ((q.1 : String) == p.1) = false := by
        simp only [beq_eq_false_iff_ne, ne_eq]
        intro hEq
        exact hn.1 (hEq ▸ List.mem_map_of_mem Prod.fst hmem)
      have hih := ih hn.2 hmem
      simp only [jlookup] at hih ⊢
      simp only [List.map_cons, List.find?, hne]
      exact hih

/-- C7: for every JSON body that is a mapping from category names to lists of
index symbols, `get_indices` returns the concatenation of those lists in
mapping order; in particular on `{"A": ["X","Y"], "B": ["Z"]}` it returns
exactly `["X","Y","Z"]`. -/
theorem get_indices_C7 :
    (∀ (m : List (String × List Json)), (m.map Prod.fst).Nodup →
       get_indices (m.map (fun q => (q.1, Json.arr q.2))) =
         .ok (m.map Prod.snd).flatten) ∧
    get_indices [("A", .arr [.str "X", .str "Y"]), ("B", .arr [.str "Z"])] =
      .ok [.str "X", .str "Y", .str "Z"] := by
  constructor
  · intro m hn
    have haux := get_indices_nodup_aux m (m.map (fun q => (q.1, Json.arr q.2)))
      (fun p hp => jlookup_of_nodup m hn p hp)
    simp only [get_indices]
    rw [show (m.map (fun q => (q.1, Json.arr q.2))).map Prod.fst = m.map Prod.fst from by simp]
    rw [haux]
    rfl
  · rfl

/-- Witness for C7: the nodup hypothesis and the conclusion at the concrete
mapping `{"A": ["X","Y"], "B": ["Z"]}`. -/
theorem get_indices_C7_witness :
    (([("A", [Json.str "X", Json.str "Y"]), ("B", [Json.str "Z"])].map
        Prod.fst).Nodup) ∧
    get_indices ([("A", [Json.str "X", Json.str "Y"]), ("B", [Json.str "Z"])].map
        (fun q => (q.1, Json.arr q.2))) =
      .ok (([("A", [Json.str "X", Json.str "Y"]), ("B", [Json.str "Z"])].map
        Prod.snd).flatten) :=
  ⟨by decide,
   get_indices_C7.1 [("A", [Json.str "X", Json.str "Y"]), ("B", [Json.str "Z"])]
     (by decide)⟩

theorem metaCompany_of_meta_absent (fields : List (String × Json))
    (hmeta : jlookup fields "meta" = none) :
    metaCompany fields = .ok Json.null := by
  unfold metaCompany jlookupD
  rw [hmeta]
  simp [jlookupD, jlookup]

theorem metaCompany_of_companyName_absent (fields mf : List (String × Json))
    (hmeta : jlookup fields "meta" = some (.obj mf))
    (hcn : jlookup mf "companyName" = none) :
    metaCompany fields = .ok Json.null := by
  unfold metaCompany jlookupD
  rw [hmeta]
  simp only [Option.getD_some]
  rw [hcn]
  rfl

theorem stockRecord_eq_recordOf (u : String) (s : Json) (h : rowOkb s = true) :
    stockRecord u s = .ok (recordOf u s) := by
  cases s with
  | obj fields =>
    simp only [rowOkb, Bool.and_eq_true, Option.isSome_iff_exists] at h
    obtain ⟨⟨sym, hsym⟩, hmeta⟩ := h
    simp only [stockRecord, recordOf, hsym, Option.getD_some]
    cases hif : sym.isStrEq u with
    | true => simp [hif]
    | false =>
      simp only [hif, Bool.false_eq_true, if_false]
      cases hm : jlookupD fields "meta" (.obj []) with
      | obj mf => simp [metaCompany, metaCompanyD, hm]
      | null => rw [hm] at hmeta; exact absurd hmeta (by simp)
      | bool b => rw [hm] at hmeta; exact absurd hmeta (by simp)
      | num q => rw [hm] at hmeta; exact absurd hmeta (by simp)
      | str t => rw [hm] at hmeta; exact absurd hmeta (by simp)
      | arr l => rw [hm] at hmeta; exact absurd hmeta (by simp)
  | null => exact absurd h (by simp [rowOkb])
  | bool b => exact absurd h (by simp [rowOkb])
  | num q => exact absurd h (by simp [rowOkb])
  | str t => exact absurd h (by simp [rowOkb])
  | arr l => exact absurd h (by simp [rowOkb])

theorem get_all_stocks_rows (index : String) (data : List Json)
    (h : ∀ s ∈ data, rowOkb s = true) :
    get_all_stocks index data = .ok (data.filterMap (recordOf index.toUpper)) := by
  simp only [get_all_stocks]
  induction data with
  | nil => rfl
  | cons s rest ih =>
    have hs := stockRecord_eq_recordOf index.toUpper s (h s (List.mem_cons_self s rest))
    have hrest := ih (fun t ht => h t (List.mem_cons_of_mem s ht))
    simp only [filterMapExc, hs, List.filterMap_cons]
    cases hr : recordOf index.toUpper s with
    | none => simpa [hr] using hrest
    | some b => simp [hr, hrest]

/-- C8: on well-formed constituents rows, `get_all_stocks` returns one
`{stock_symbol, company_name}` record per row except the row whose symbol
equals the uppercased index name, which is excluded; the index name is
accepted case-insensitively, and the request URL carries the uppercased
name. -/
theorem get_all_stocks_C8 :
    (∀ (index : String) (data : List Json), (∀ s ∈ data, rowOkb s = true) →
       get_all_stocks index data = .ok (data.filterMap (recordOf index.toUpper))) ∧
    (∀ (u : String) (fields : List (String × Json)),
       recordOf u (.obj fields) = none ↔
         Json.isStrEq ((jlookup fields "symbol").getD Json.null) u = true) ∧
    (∀ (i₁ i₂ : String) (data : List Json), i₁.toUpper = i₂.toUpper →
       get_all_stocks i₁ data = get_all_stocks i₂ data ∧
       get_all_stocks_url i₁ = get_all_stocks_url i₂) ∧
    (∀ index : String, get_all_stocks_url index =
       "https://www.nseindia.com/api/equity-stockIndices?index=" ++
         urlQuote index.toUpper) := by
  refine ⟨get_all_stocks_rows, ?_, ?_, fun _ => rfl⟩
  · intro u fields
    simp only [recordOf]
    cases hif : Json.isStrEq ((jlookup fields "symbol").getD Json.null) u <;>
      simp [hif]
  · intro i₁ i₂ data h
    constructor
    · simp only [get_all_stocks, h]
    · simp only [get_all_stocks_url, h]

/-- Witness for C8: the row hypothesis and the conclusion at a concrete
index name (`"nifty 50"`, exercising case-insensitivity) and two concrete
rows, the first being the index row itself. -/
theorem get_all_stocks_C8_witness :
    (∀ s ∈ [Json.obj [("symbol", Json.str "NIFTY 50")],
            Json.obj [("symbol", Json.str "TCS"),
                      ("meta", Json.obj [("companyName", Json.str "Tata Consultancy")])]],
       rowOkb s = true) ∧
    get_all_stocks "nifty 50"
        [Json.obj [("symbol", Json.str "NIFTY 50")],
         Json.obj [("symbol", Json.str "TCS"),
                   ("meta", Json.obj [("companyName", Json.str "Tata Consultancy")])]] =
      .ok ([Json.obj [("symbol", Json.str "NIFTY 50")],
            Json.obj [("symbol", Json.str "TCS"),
                      ("meta", Json.obj [("companyName", Json.str "Tata Consultancy")])]].filterMap
             (recordOf ("nifty 50").toUpper)) :=
  ⟨by decide,
   get_all_stocks_C8.1 "nifty 50"
     [Json.obj [("symbol", Json.str "NIFTY 50")],
      Json.obj [("symbol", Json.str "TCS"),
                ("meta", Json.obj [("companyName", Json.str "Tata Consultancy")])]]
     (by decide)⟩

/-- C10: `get_all_stocks` tolerates a row with no `meta` dict or no
`companyName` field — the row still yields a record whose `company_name` is
the explicit missing value — whereas `index_data` reads `meta` unguarded on
every non-first row, so a non-first row lacking `meta` makes `index_datum`
raise. -/
theorem missing_meta_C10 :
    (∀ (u : String) (fields : List (String × Json)) (sym : Json),
       jlookup fields "symbol" = some sym →
       jlookup fields "meta" = none →
       stockRecord u (.obj fields) =
         .ok (if sym.isStrEq u then none
              else some [("stock_symbol", sym), ("company_name", Json.null)])) ∧
    (∀ (u : String) (fields mf : List (String × Json)) (sym : Json),
       jlookup fields "symbol" = some sym →
       jlookup fields "meta" = some (.obj mf) →
       jlookup mf "companyName" = none →
       stockRecord u (.obj fields) =
         .ok (if sym.isStrEq u then none
              else some [("stock_symbol", sym), ("company_name", Json.null)])) ∧
    (∀ (ts : Json) (i : Nat) (fields : List (String × Json)),
       i ≠ 0 →
       jlookup fields "meta" = none →
       exceptOk (index_datum ts i (.obj fields)) = false) := by
  refine ⟨?_, ?_, ?_⟩
  · intro u fields sym hsym hmeta
    have hm := metaCompany_of_meta_absent fields hmeta
    simp only [stockRecord, hsym, hm]
    cases hif : sym.isStrEq u <;> simp [hif]
  · intro u fields mf sym hsym hmeta hcn
    have hm := metaCompany_of_companyName_absent fields mf hmeta hcn
    simp only [stockRecord, hsym, hm]
    cases hif : sym.isStrEq u <;> simp [hif]
  · intro ts i fields hi hmeta
    cases hmap : mapExc (indexEntry (Json.obj fields)) indexFieldMap with
    | error e => simp [index_datum, hmap, exceptOk]
    | ok pairs =>
      simp only [index_datum, hmap, if_pos hi]
      simp [jget, hmeta, exceptOk]

/-- Witness for C10: all three parts applied at concrete rows — a row with
no `meta` at all, a row whose `meta` lacks `companyName`, and a non-first
`index_data` row with no `meta`. -/
theorem missing_meta_C10_witness :
    (jlookup [("symbol", Json.str "TCS")] "symbol" = some (Json.str "TCS") ∧
     jlookup [("symbol", Json.str "TCS")] "meta" = none ∧
     stockRecord "NIFTY 50" (.obj [("symbol", Json.str "TCS")]) =
       .ok (if (Json.str "TCS").isStrEq "NIFTY 50" then none
            else some [("stock_symbol", Json.str "TCS"),
                       ("company_name", Json.null)])) ∧
    (jlookup [("symbol", Json.str "INFY"), ("meta", Json.obj [])] "meta" =
       some (Json.obj []) ∧
     stockRecord "NIFTY 50" (.obj [("symbol", Json.str "INFY"), ("meta", Json.obj [])]) =
       .ok (if (Json.str "INFY").isStrEq "NIFTY 50" then none
            else some [("stock_symbol", Json.str "INFY"),
                       ("company_name", Json.null)])) ∧
    exceptOk (index_datum Json.null 1 (.obj [("symbol", Json.str "TCS")])) = false :=
  ⟨⟨rfl, rfl,
    missing_meta_C10.1 "NIFTY 50" [("symbol", Json.str "TCS")] (Json.str "TCS") rfl rfl⟩,
   ⟨rfl,
    missing_meta_C10.2.1 "NIFTY 50" [("symbol", Json.str "INFY"), ("meta", Json.obj [])]
      [] (Json.str "INFY") rfl rfl rfl⟩,
   missing_meta_C10.2.2 Json.null 1 [("symbol", Json.str "TCS")] (by decide) rfl⟩

theorem mapExc_indexEntry_fst (d : Json) (l : List (String × String))
    (l' : List (String × Json)) (h : mapExc (indexEntry d) l = .ok l') :
    l'.map Prod.fst = l.map Prod.fst := by
  induction l generalizing l' with
  | nil => simp [mapExc] at h; simp [← h]
  | cons a as ih =>
    simp only [mapExc] at h
    cases hfa : indexEntry d a with
    | error e => rw [hfa] at h; exact absurd h (by simp)
    | ok b =>
      rw [hfa] at h
      cases hrec : mapExc (indexEntry d) as with
      | error e => rw [hrec] at h; exact absurd h (by simp)
      | ok bs =>
        rw [hrec] at h
        cases h
        have hb : b.1 = a.1 := by
          simp only [indexEntry] at hfa
          cases hga : jget d a.2 with
          | error e => rw [hga] at hfa; exact absurd hfa (by simp)
          | ok v => rw [hga] at hfa; cases hfa; rfl
        simp [hb, ih bs hrec]

theorem index_datum_keys (ts : Json) (i : Nat) (d : Json)
    (r : List (String × Json)) (h : index_datum ts i d = .ok r) :
    r.map Prod.fst = if i = 0 then indexKeys else indexKeys ++ ["company_name"] := by
  simp only [index_datum] at h
  cases hmap : mapExc (indexEntry d) indexFieldMap with
  | error e => simp [hmap] at h
  | ok pairs =>
    simp only [hmap] at h
    have hfst : pairs.map Prod.fst = indexFieldMap.map Prod.fst :=
      mapExc_indexEntry_fst d indexFieldMap pairs hmap
    by_cases hi : i = 0
    · subst hi
      simp only [ne_eq, not_true_eq_false, if_false] at h
      injection h with h2
      subst h2
      simp [List.map_append, hfst, indexFieldMap, indexKeys]
    · simp only [ne_eq, hi, not_false_eq_true, if_true] at h
      cases hmeta : jget d "meta" with
      | error e => simp [hmeta] at h
      | ok mv =>
        simp only [hmeta] at h
        cases mv with
        | obj mf =>
          injection h with h2
          subst h2
          simp [List.map_append, hfst, indexFieldMap, indexKeys, hi]
        | null => simp at h
        | bool b => simp at h
        | num q => simp at h
        | str s => simp at h
        | arr l => simp at h

theorem enumFrom_getD (l : List α) (n i : Nat) (hi : i < l.length) (d : α) :
    (l.enumFrom n).getD i (0, d) = (n + i, l.getD i d) := by
  induction l generalizing n i with
  | nil => exact absurd hi (by simp)
  | cons a as ih =>
    cases i with
    | zero => simp [List.enumFrom]
    | succ j =>
      simp only [List.enumFrom, List.getD_cons_succ]
      rw [ih (n + 1) j (by simpa using hi)]
      have harith : n + 1 + j = n + (j + 1) := by omega
      rw [harith]

/-- C2: for a 200-status JSON body whose `data` entry is an array,
whenever `index_data` returns a list of records, its length equals the
array's length, each record's field names are exactly the canonical list
(`indexKeys`, with `company_name` appended on every record but the first),
and `company_name` is not among the canonical names — so the first record
lacks it and every subsequent record has it. -/
theorem index_data_C2 (body : Json) (data : List Json)
    (recs : List (List (String × Json)))
    (hdata : jget body "data" = .ok (.arr data))
    (hok : index_data 200 body = .ok (some recs)) :
    recs.length = data.length ∧
    (∀ i, i < recs.length →
       (recs.getD i []).map Prod.fst =
         if i = 0 then indexKeys else indexKeys ++ ["company_name"]) ∧
    "company_name" ∉ indexKeys := by
  simp only [index_data] at hok
  rw [if_neg (by simp : ¬ ((200 : Nat) ≠ 200))] at hok
  cases hts : jget body "timestamp" with
  | error e => rw [hts] at hok; exact absurd hok (by simp)
  | ok ts =>
    simp only [hts, hdata] at hok
    cases hmap : mapExc (fun p => index_datum ts p.1 p.2) data.enum with
    | error e => simp [hmap] at hok
    | ok recs' =>
      simp only [hmap] at hok
      have hrecs : recs' = recs := by simpa using hok
      subst hrecs
      have hlen : recs'.length = data.length := by
        rw [mapExc_ok_length hmap]
        simp [List.enum]
      refine ⟨hlen, ?_, by decide⟩
      intro i hi
      have hil : i < data.enum.length := by
        simpa [List.enum] using hlen ▸ hi
      have hfi := mapExc_ok_getD hmap i hil (0, Json.null) []
      have henum : data.enum.getD i (0, Json.null) = (i, data.getD i Json.null) := by
        have := enumFrom_getD data 0 i (by simpa [List.enum] using hil) Json.null
        simpa [List.enum] using this
      rw [henum] at hfi
      exact index_datum_keys ts i (data.getD i Json.null) (recs'.getD i []) hfi

/-- Witness for C2: the hypotheses and conclusion at a concrete two-row
body (the index row itself, then one constituent with a `meta` dict). -/
theorem index_data_C2_witness :
    (jget c2body "data" = .ok (.arr c2data)) ∧
    (index_data 200 c2body = .ok (some c2recs)) ∧
    (c2recs.length = c2data.length ∧
     (∀ i, i < c2recs.length →
        (c2recs.getD i []).map Prod.fst =
          if i = 0 then indexKeys else indexKeys ++ ["company_name"]) ∧
     "company_name" ∉ indexKeys) :=
  ⟨rfl, rfl, index_data_C2 c2body c2data c2recs rfl rfl⟩

/-- C5: on non-200 status both `get_stock_data` and `index_data` return
`None` without raising, and on a 200-status dict body with no `info` key
`get_stock_data` also returns `None`. -/
theorem null_results_C5 :
    (∀ (status : Nat) (body : Json), status ≠ 200 →
       get_stock_data status body = .ok none) ∧
    (∀ (status : Nat) (body : Json), status ≠ 200 →
       index_data status body = .ok none) ∧
    (∀ bf : List (String × Json), jlookup bf "info" = none →
       get_stock_data 200 (.obj bf) = .ok none) := by
  refine ⟨?_, ?_, ?_⟩
  · intro s b h
    simp [get_stock_data, h]
  · intro s b h
    simp [index_data, h]
  · intro bf h
    have htr : (jlookupD bf "info" Json.null).truthy = false := by
      unfold jlookupD
      rw [h]
      rfl
    simp [get_stock_data, htr]

/-- Witness for C5: concrete non-200 responses and a concrete 200 body
lacking `info`. -/
theorem null_results_C5_witness :
    get_stock_data 404 (Json.str "Access Denied") = .ok none ∧
    index_data 404 Json.null = .ok none ∧
    get_stock_data 200 (.obj [("msg", Json.str "no data")]) = .ok none :=
  ⟨null_results_C5.1 404 (Json.str "Access Denied") (by decide),
   null_results_C5.2.1 404 Json.null (by decide),
   null_results_C5.2.2 [("msg", Json.str "no data")] rfl⟩

/-- C9: in `get_stock_data`, the `change` and `pChange` output fields equal
the source values rounded to 2 decimal places, and every other output field
is a direct rename of the corresponding (nested) source JSON field, with no
derived computation. -/
theorem get_stock_data_C9
    (bf : List (String × Json))
    (info metadata priceInfo idhl whl pre : Json)
    (sym cname industry listing openp lastp prevc highp lowp : Json)
    (whd wh wld wl ttv tbq tsq lut : Json) (c p : Rat)
    (htruthy : (jlookupD bf "info" Json.null).truthy = true)
    (hinfo : jget (.obj bf) "info" = .ok info)
    (hsym : jget info "symbol" = .ok sym)
    (hcname : jget info "companyName" = .ok cname)
    (hind : infoIndustry info = .ok industry)
    (hmeta : jget (.obj bf) "metadata" = .ok metadata)
    (hlist : jget metadata "listingDate" = .ok listing)
    (hpi : jget (.obj bf) "priceInfo" = .ok priceInfo)
    (hopen : jget priceInfo "open" = .ok openp)
    (hlast : jget priceInfo "lastPrice" = .ok lastp)
    (hprev : jget priceInfo "previousClose" = .ok prevc)
    (hidhl : jget priceInfo "intraDayHighLow" = .ok idhl)
    (hhigh : jget idhl "max" = .ok highp)
    (hlow : jget idhl "min" = .ok lowp)
    (hch : jget priceInfo "change" = .ok (.num c))
    (hpch : jget priceInfo "pChange" = .ok (.num p))
    (hwhl : jget priceInfo "weekHighLow" = .ok whl)
    (hwhd : jget whl "maxDate" = .ok whd)
    (hwh : jget whl "max" = .ok wh)
    (hwld : jget whl "minDate" = .ok wld)
    (hwl : jget whl "min" = .ok wl)
    (hpre : jget (.obj bf) "preOpenMarket" = .ok pre)
    (httv : jget pre "totalTradedVolume" = .ok ttv)
    (htbq : jget pre "totalBuyQuantity" = .ok tbq)
    (htsq : jget pre "totalSellQuantity" = .ok tsq)
    (hlut : jget metadata "lastUpdateTime" = .ok lut) :
    get_stock_data 200 (.obj bf) =
      .ok (some
        [("symbol", sym), ("company_name", cname), ("industry", industry),
         ("listingDate", listing), ("open_price", openp),
         ("last_price", lastp), ("previous_close", prevc),
         ("high_price", highp), ("low_price", lowp),
         ("change", .num (round2 c)), ("pChange", .num (round2 p)),
         ("52w_high_date", whd), ("52w_high", wh), ("52w_low_date", wld),
         ("52w_low", wl), ("total_traded_volume", ttv),
         ("total_buy_quantity", tbq), ("total_sell_quantity", tsq),
         ("last_update_time", lut)]) := by
  simp [get_stock_data, htruthy, hinfo, hsym, hcname, hind, hmeta, hlist,
    hpi, hopen, hlast, hprev, hidhl, hhigh, hlow, hch, hpch, hwhl, hwhd,
    hwh, hwld, hwl, hpre, httv, htbq, htsq, hlut, jround2, bind, Except.bind,
    pure, Except.pure]

/-- Witness for C9: all hypotheses and the conclusion at a fully concrete
quote body; `change` is 0.025 (rounding to 0.02 by banker's rounding) and
`pChange` is 1/3. -/
theorem get_stock_data_C9_witness :
    ((jlookupD c9body "info" Json.null).truthy = true) ∧
    (jget (.obj c9body) "info" = .ok c9info) ∧
    (jget c9info "symbol" = .ok (.str "TCS")) ∧
    (jget c9info "companyName" = .ok (.str "Tata Consultancy")) ∧
    (infoIndustry c9info = .ok (.str "IT")) ∧
    (jget (.obj c9body) "metadata" = .ok c9metadata) ∧
    (jget c9metadata "listingDate" = .ok (.str "2004-08-25")) ∧
    (jget (.obj c9body) "priceInfo" = .ok c9priceInfo) ∧
    (jget c9priceInfo "open" = .ok (.num 10)) ∧
    (jget c9priceInfo "lastPrice" = .ok (.num 11)) ∧
    (jget c9priceInfo "previousClose" = .ok (.num 9)) ∧
    (jget c9priceInfo "intraDayHighLow" = .ok c9idhl) ∧
    (jget c9idhl "max" = .ok (.num 12)) ∧
    (jget c9idhl "min" = .ok (.num 8)) ∧
    (jget c9priceInfo "change" = .ok (.num (1/40))) ∧
    (jget c9priceInfo "pChange" = .ok (.num (1/3))) ∧
    (jget c9priceInfo "weekHighLow" = .ok c9whl) ∧
    (jget c9whl "maxDate" = .ok (.str "2025-01-02")) ∧
    (jget c9whl "max" = .ok (.num 20)) ∧
    (jget c9whl "minDate" = .ok (.str "2024-06-04")) ∧
    (jget c9whl "min" = .ok (.num 5)) ∧
    (jget (.obj c9body) "preOpenMarket" = .ok c9pre) ∧
    (jget c9pre "totalTradedVolume" = .ok (.num 100)) ∧
    (jget c9pre "totalBuyQuantity" = .ok (.num 50)) ∧
    (jget c9pre "totalSellQuantity" = .ok (.num 60)) ∧
    (jget c9metadata "lastUpdateTime" = .ok (.str "10-Oct-2025 16:00:00")) ∧
    get_stock_data 200 (.obj c9body) =
      .ok (some
        [("symbol", .str "TCS"), ("company_name", .str "Tata Consultancy"),
         ("industry", .str "IT"), ("listingDate", .str "2004-08-25"),
         ("open_price", .num 10), ("last_price", .num 11),
         ("previous_close", .num 9), ("high_price", .num 12),
         ("low_price", .num 8), ("change", .num (round2 (1/40))),
         ("pChange", .num (round2 (1/3))),
         ("52w_high_date", .str "2025-01-02"), ("52w_high", .num 20),
         ("52w_low_date", .str "2024-06-04"), ("52w_low", .num 5),
         ("total_traded_volume", .num 100), ("total_buy_quantity", .num 50),
         ("total_sell_quantity", .num 60),
         ("last_update_time", .str "10-Oct-2025 16:00:00")]) :=
  ⟨rfl, rfl, rfl, rfl, rfl, rfl, rfl, rfl, rfl, rfl, rfl, rfl, rfl, rfl,
   rfl, rfl, rfl, rfl, rfl, rfl, rfl, rfl, rfl, rfl, rfl, rfl,
   get_stock_data_C9 c9body c9info c9metadata c9priceInfo c9idhl c9whl c9pre
     (.str "TCS") (.str "Tata Consultancy") (.str "IT") (.str "2004-08-25")
     (.num 10) (.num 11) (.num 9) (.num 12) (.num 8) (.str "2025-01-02")
     (.num 20) (.str "2024-06-04") (.num 5) (.num 100) (.num 50) (.num 60)
     (.str "10-Oct-2025 16:00:00") (1/40) (1/3)
     rfl rfl rfl rfl rfl rfl rfl rfl rfl rfl rfl rfl rfl rfl rfl rfl rfl
     rfl rfl rfl rfl rfl rfl rfl rfl rfl⟩

theorem getD_set_self (l : List α) {j : Nat} (c d : α) (h : j < l.length) :
    (l.set j c).getD j d = c := by
  induction l generalizing j with
  | nil => simp at h
  | cons a as ih =>
    cases j with
    | zero => rfl
    | succ i =>
      simp only [List.set_cons_succ, List.getD_cons_succ]
      exact ih (by simpa using h)

theorem getD_set_ne (l : List α) {i j : Nat} (c d : α) (h : i ≠ j) :
    (l.set i c).getD j d = l.getD j d := by
  induction l generalizing i j with
  | nil => simp
  | cons a as ih =>
    cases i with
    | zero =>
      cases j with
      | zero => exact absurd rfl h
      | succ jj => simp
    | succ ii =>
      cases j with
      | zero => simp
      | succ jj =>
        simp only [List.set_cons_succ, List.getD_cons_succ]
        exact ih (fun hh => h (by rw [hh]))

theorem lt_of_getD_ne_default {l : List α} {i : Nat} {d : α}
    (h : l.getD i d ≠ d) : i < l.length := by
  by_contra hcon
  exact h (List.getD_eq_default l d (Nat.le_of_not_lt hcon))

theorem map_getD_of_lt (f : α → β) (l : List α) {i : Nat} (hi : i < l.length)
    (dα : α) (dβ : β) : (l.map f).getD i dβ = f (l.getD i dα) := by
  rw [List.getD_eq_getElem (l.map f) dβ (by simpa using hi)]
  rw [List.getElem_map]
  rw [List.getD_eq_getElem l dα hi]

theorem setColumns_ok {df : DataFrame} {names : List String} {df' : DataFrame}
    (h : setColumns df names = .ok df') :
    df.header.length = names.length ∧ df' = { header := names, rows := df.rows } := by
  unfold setColumns at h
  by_cases hlen : df.header.length = names.length
  · rw [if_pos hlen] at h
    injection h with h2
    exact ⟨hlen, h2.symm⟩
  · rw [if_neg hlen] at h
    exact absurd h (by simp)

theorem setDateColumn_ok {df df' : DataFrame} (h : setDateColumn df = .ok df') :
    ∃ j rows, df.header.findIdx? (fun s => s == "DATE") = some j ∧
      mapExc (dateRowStep j) df.rows = .ok rows ∧
      df' = { header := df.header, rows := rows } := by
  unfold setDateColumn at h
  cases hidx : df.header.findIdx? (fun s => s == "DATE") with
  | none => rw [hidx] at h; exact absurd h (by simp)
  | some j =>
    rw [hidx] at h
    cases hmap : mapExc (dateRowStep j) df.rows with
    | error e => simp [hmap] at h
    | ok rows =>
      simp only [hmap] at h
      injection h with h2
      exact ⟨j, rows, rfl, hmap, h2.symm⟩

theorem coerceVWAP_ok {df df' : DataFrame} (h : coerceVWAP df = .ok df') :
    ∃ j, df.header.findIdx? (fun s => s == "VWAP") = some j ∧
      df' = { header := df.header, rows := df.rows.map (vwapRow j) } := by
  unfold coerceVWAP at h
  cases hidx : df.header.findIdx? (fun s => s == "VWAP") with
  | none => rw [hidx] at h; exact absurd h (by simp)
  | some j =>
    rw [hidx] at h
    injection h with h2
    exact ⟨j, rfl, h2.symm⟩

theorem historicalPipeline_ok (symbol text : String) (df : DataFrame)
    (h : historicalPipeline symbol text = .ok df) :
    ∃ df0 rows3,
      readCsv text = .ok df0 ∧
      df0.header.length = 14 ∧
      mapExc (dateRowStep 1) (df0.rows.map (fun r => Cell.str symbol :: r)) = .ok rows3 ∧
      df.header = "SYMBOL" :: histColumns ∧
      df.rows = rows3.map (vwapRow 9) := by
  simp only [historicalPipeline] at h
  cases hcsv : readCsv text with
  | error e => simp [hcsv] at h
  | ok df0 =>
    simp only [hcsv] at h
    cases hset : setColumns df0 histColumns with
    | error e => simp [hset] at h
    | ok df1 =>
      simp only [hset] at h
      obtain ⟨hlen, hdf1⟩ := setColumns_ok hset
      subst hdf1
      cases hdate : setDateColumn
          (insertCol { header := histColumns, rows := df0.rows } "SYMBOL" (Cell.str symbol)) with
      | error e => simp [hdate] at h
      | ok df3 =>
        simp only [hdate] at h
        obtain ⟨j, rows3, hidx, hmapd, hdf3⟩ := setDateColumn_ok hdate
        have hj : j = 1 := by
          have hcomp : (insertCol { header := histColumns, rows := df0.rows }
              "SYMBOL" (Cell.str symbol)).header.findIdx? (fun s => s == "DATE") =
              some 1 := by rfl
          rw [hcomp] at hidx
          injection hidx with h2
          exact h2.symm
        subst hj
        subst hdf3
        obtain ⟨j2, hidx2, hdfv⟩ := coerceVWAP_ok h
        have hj2 : j2 = 9 := by
          have hcomp : (insertCol { header := histColumns, rows := df0.rows }
              "SYMBOL" (Cell.str symbol)).header.findIdx? (fun s => s == "VWAP") =
              some 9 := by rfl
          simp only [hcomp] at hidx2
          injection hidx2 with h2
          exact h2.symm
        subst hj2
        subst hdfv
        exact ⟨df0, rows3, rfl, by simpa using hlen, hmapd, rfl, rfl⟩

theorem date_rows_row (symbol : String) (df0rows rows3 : List (List Cell))
    (hmapd : mapExc (dateRowStep 1) (df0rows.map (fun r => Cell.str symbol :: r)) = .ok rows3)
    (i : Nat) (hi : i < df0rows.length) :
    ∃ c, dateCell? ((df0rows.getD i []).getD 0 Cell.nan) = some c ∧
      rows3.getD i [] = (Cell.str symbol :: df0rows.getD i []).set 1 c := by
  have hstep := mapExc_ok_getD hmapd i (by simpa using hi) [] []
  rw [map_getD_of_lt (fun r => Cell.str symbol :: r) df0rows hi []] at hstep
  unfold dateRowStep at hstep
  cases hdc : dateCell? ((Cell.str symbol :: df0rows.getD i []).getD 1 Cell.nan) with
  | none => rw [hdc] at hstep; exact absurd hstep (by simp)
  | some c =>
    rw [hdc] at hstep
    injection hstep with h2
    exact ⟨c, by simpa using hdc, h2.symm⟩

theorem toNumericCoerce_ne_str (c : Cell) (s : String) :
    toNumericCoerce c ≠ Cell.str s := by
  cases c with
  | num q => simp [toNumericCoerce]
  | nan => simp [toNumericCoerce]
  | date y m d => simp [toNumericCoerce]
  | str t =>
    simp only [toNumericCoerce]
    cases hp : parseRat? t.toList <;> simp

/-- C1: for every 200-status historical response whose body parses to a
frame `df0` (necessarily of 14 columns, since the operation succeeded) with
a row dated `"01-Jan-2023"`, the returned table has a prepended `SYMBOL`
column equal to the symbol argument as passed, that row's `DATE` value is
the date 2023-01-01 parsed from the day-month-year text, and its `VWAP`
value carries over the number that `read_csv` already parsed (thousands
separators removed). -/
theorem get_historical_data_C1 (symbol body : String) (bj : Option Json)
    (df0 df : DataFrame) (r : Nat)
    (hparse : readCsv body = .ok df0)
    (hok : get_historical_data symbol 200 body bj = .ok (some df, []))
    (hr : r < df0.rows.length)
    (hdate : (df0.rows.getD r []).getD 0 Cell.nan = Cell.str "01-Jan-2023") :
    df.header = "SYMBOL" :: histColumns ∧
    df.rows.length = df0.rows.length ∧
    (∀ i, i < df.rows.length →
       (df.rows.getD i []).getD 0 Cell.nan = Cell.str symbol) ∧
    (df.rows.getD r []).getD 1 Cell.nan = Cell.date 2023 1 1 ∧
    (∀ q : Rat, (df0.rows.getD r []).getD 8 Cell.nan = Cell.num q →
       (df.rows.getD r []).getD 9 Cell.nan = Cell.num q) := by
  have hpipe : historicalPipeline symbol body = .ok df := by
    simp only [get_historical_data, if_pos rfl] at hok
    cases hp : historicalPipeline symbol body with
    | ok d =>
      simp only [hp] at hok
      have hd : d = df := by simpa using hok
      rw [← hd]
    | error e =>
      simp only [hp] at hok
      cases bj with
      | none => simp at hok
      | some j => cases j <;> simp at hok
  obtain ⟨df0', rows3, hcsv', hlen14, hmapd, hheader, hrows⟩ :=
    historicalPipeline_ok symbol body df hpipe
  have hdf0 : df0 = df0' := by
    rw [hparse] at hcsv'
    simpa using hcsv'
  subst hdf0
  have hlen3 : rows3.length = df0.rows.length := by
    rw [mapExc_ok_length hmapd]
    simp
  have hlenfin : df.rows.length = df0.rows.length := by
    rw [hrows]
    simpa using hlen3
  refine ⟨hheader, hlenfin, ?_, ?_, ?_⟩
  · intro i hi
    have hi0 : i < df0.rows.length := hlenfin ▸ hi
    have hi3 : i < rows3.length := by rw [hlen3]; exact hi0
    obtain ⟨c, hdc, hrow3⟩ := date_rows_row symbol df0.rows rows3 hmapd i hi0
    rw [hrows, map_getD_of_lt (vwapRow 9) rows3 hi3 [], hrow3]
    unfold vwapRow
    rw [getD_set_ne _ _ _ (by omega : (9 : Nat) ≠ 0)]
    rw [getD_set_ne _ _ _ (by omega : (1 : Nat) ≠ 0)]
    exact List.getD_cons_zero
  · obtain ⟨c, hdc, hrow3⟩ := date_rows_row symbol df0.rows rows3 hmapd r hr
    rw [hdate] at hdc
    have hc : c = Cell.date 2023 1 1 := by
      have : dateCell? (Cell.str "01-Jan-2023") = some (Cell.date 2023 1 1) := by rfl
      rw [this] at hdc
      injection hdc with h2
      exact h2.symm
    subst hc
    have hr3 : r < rows3.length := by rw [hlen3]; exact hr
    rw [hrows, map_getD_of_lt (vwapRow 9) rows3 hr3 [], hrow3]
    unfold vwapRow
    rw [getD_set_ne _ _ _ (by omega : (9 : Nat) ≠ 1)]
    have hlt0 : 0 < (df0.rows.getD r []).length :=
      lt_of_getD_ne_default (by rw [hdate]; simp)
    exact getD_set_self _ _ _ (by simpa using hlt0)
  · intro q hq
    obtain ⟨c, hdc, hrow3⟩ := date_rows_row symbol df0.rows rows3 hmapd r hr
    have hr3 : r < rows3.length := by rw [hlen3]; exact hr
    have hlt8 : 8 < (df0.rows.getD r []).length :=
      lt_of_getD_ne_default (by rw [hq]; simp)
    rw [hrows, map_getD_of_lt (vwapRow 9) rows3 hr3 [], hrow3]
    unfold vwapRow
    have hlen9 : 9 < ((Cell.str symbol :: df0.rows.getD r []).set 1 c).length := by
      simp only [List.length_set, List.length_cons]
      omega
    rw [getD_set_self _ _ _ hlen9]
    rw [getD_set_ne _ _ _ (by omega : (1 : Nat) ≠ 9)]
    have hget9 : (Cell.str symbol :: df0.rows.getD r []).getD 9 Cell.nan = Cell.num q := by
      simpa using hq
    rw [hget9]
    rfl

/-- Witness for C1: the hypotheses and conclusion at the concrete body
`c1body` (14 columns, one row dated `01-Jan-2023`, VWAP cell
`"1,234.56"`), with the mixed-case symbol `"Tcs"` passed through
verbatim. -/
theorem get_historical_data_C1_witness :
    (readCsv c1body = .ok c1df0) ∧
    (get_historical_data "Tcs" 200 c1body none = .ok (some c1df, [])) ∧
    (0 < c1df0.rows.length) ∧
    ((c1df0.rows.getD 0 []).getD 0 Cell.nan = Cell.str "01-Jan-2023") ∧
    (c1df.header = "SYMBOL" :: histColumns ∧
     c1df.rows.length = c1df0.rows.length ∧
     (∀ i, i < c1df.rows.length →
        (c1df.rows.getD i []).getD 0 Cell.nan = Cell.str "Tcs") ∧
     (c1df.rows.getD 0 []).getD 1 Cell.nan = Cell.date 2023 1 1 ∧
     (∀ q : Rat, (c1df0.rows.getD 0 []).getD 8 Cell.nan = Cell.num q →
        (c1df.rows.getD 0 []).getD 9 Cell.nan = Cell.num q)) :=
  ⟨rfl, rfl, by decide, rfl,
   get_historical_data_C1 "Tcs" c1body none c1df0 c1df 0 rfl rfl (by decide) rfl⟩

/-- C4: on every non-200 historical response, `get_historical_data` returns
`None` (it does not raise) and prints the raw response body as its only
diagnostic line. -/
theorem get_historical_data_C4 (symbol : String) (status : Nat)
    (body : String) (bj : Option Json) (h : status ≠ 200) :
    get_historical_data symbol status body bj = .ok (none, [body]) := by
  simp [get_historical_data, h]

/-- Witness for C4: a concrete 401 response. -/
theorem get_historical_data_C4_witness :
    get_historical_data "TCS" 401 "Access Denied" none = .ok (none, ["Access Denied"]) :=
  get_historical_data_C4 "TCS" 401 "Access Denied" none (by decide)

/-- C3: on a 200-status body that the CSV pipeline cannot process, when the
body decodes to a JSON dict whose `showMessage` entry is the string `m`,
`get_historical_data` raises an error whose message contains `m`. -/
theorem get_historical_data_C3 (symbol body : String)
    (fields : List (String × Json)) (m : String)
    (hfail : exceptOk (historicalPipeline symbol body) = false)
    (hmsg : jlookup fields "showMessage" = some (.str m)) :
    ∃ msg, get_historical_data symbol 200 body (some (.obj fields)) = .error msg ∧
      ∃ p q, msg = p ++ m ++ q := by
  cases hp : historicalPipeline symbol body with
  | ok d => rw [hp] at hfail; exact absurd hfail (by simp [exceptOk])
  | error e =>
    have hlk : jlookupD fields "showMessage" Json.null = .str m := by
      unfold jlookupD
      rw [hmsg]
      rfl
    refine ⟨"Error: " ++ m, ?_, "Error: ", "", by simp⟩
    simp only [get_historical_data, if_pos rfl, hp, hlk]
    rfl

/-- Witness for C3: a concrete 200 response whose body is not CSV-shaped
(one column, so the 14-name rename raises) and whose JSON decode carries a
`showMessage` diagnostic. -/
theorem get_historical_data_C3_witness :
    (exceptOk (historicalPipeline "TCS" "not a csv") = false) ∧
    (jlookup [("showMessage", Json.str "No data available")] "showMessage" =
       some (.str "No data available")) ∧
    (∃ msg, get_historical_data "TCS" 200 "not a csv"
        (some (.obj [("showMessage", Json.str "No data available")])) = .error msg ∧
      ∃ p q, msg = p ++ "No data available" ++ q) :=
  ⟨rfl, rfl,
   get_historical_data_C3 "TCS" "not a csv"
     [("showMessage", Json.str "No data available")] "No data available" rfl rfl⟩

/-- C6 counterexample: a produced historical table in which the numeric
`OPEN` field is not coerced — the cell `"1.5"` stays a string because the
malformed cell `"abc"` in the same column kept the column as object dtype,
and `"abc"` itself stays a string rather than becoming a missing value. -/
theorem hist_numeric_C6_cex :
    get_historical_data "TCS" 200 c6body (some (Json.obj [])) = .ok (some c6df, []) ∧
    (c6df.rows.getD 0 []).getD 3 Cell.nan = Cell.str "1.5" ∧
    (c6df.rows.getD 1 []).getD 3 Cell.nan = Cell.str "abc" :=
  ⟨rfl, rfl, rfl⟩

/-- C6 (amended): only the `VWAP` column is unconditionally coerced — in a
produced table it never holds a string, its malformed cells having become
missing; any other column is numeric only when every one of its non-empty
cells parses as a number after removing thousands separators, and
otherwise its non-empty cells remain strings (without raising). -/
theorem hist_numeric_C6_amended :
    (∀ (symbol text : String) (df : DataFrame),
       historicalPipeline symbol text = .ok df →
       ∀ i, i < df.rows.length → ∀ s : String,
         (df.rows.getD i []).getD 9 Cell.nan ≠ Cell.str s) ∧
    (∀ cells : List String, colIsNumeric cells = false →
       ∀ s ∈ cells, s.isEmpty = false →
         mkCell (colIsNumeric cells) s = Cell.str s) ∧
    (∀ cells : List String, colIsNumeric cells = true → ∀ s ∈ cells,
       s.isEmpty = true ∨ ∃ q, parseNumTh? s = some q) := by
  refine ⟨?_, ?_, ?_⟩
  · intro symbol text df hpipe i hi s
    obtain ⟨df0, rows3, hcsv, hlen14, hmapd, hheader, hrows⟩ :=
      historicalPipeline_ok symbol text df hpipe
    have hi3 : i < rows3.length := by
      rw [hrows] at hi
      simpa using hi
    rw [hrows, map_getD_of_lt (vwapRow 9) rows3 hi3 []]
    unfold vwapRow
    by_cases h9 : 9 < (rows3.getD i []).length
    · rw [getD_set_self _ _ _ h9]
      exact toNumericCoerce_ne_str _ s
    · rw [List.getD_eq_default _ _ (by simpa using Nat.le_of_not_lt h9)]
      simp
  · intro cells hfalse s hs hne
    rw [hfalse]
    simp [mkCell, hne]
  · intro cells htrue s hs
    have := List.all_eq_true.mp htrue s hs
    rcases Bool.or_eq_true_iff.mp (by simpa using this) with h1 | h2
    · exact Or.inl h1
    · exact Or.inr (Option.isSome_iff_exists.mp h2)

/-- Witness for C6 (amended): the pipeline on `c6body` yields `c6df`, whose
`VWAP` cell is not a string; the object `OPEN` column `["1.5", "abc"]` is
not numeric and keeps `"abc"` as a string. -/
theorem hist_numeric_C6_amended_witness :
    (historicalPipeline "TCS" c6body = .ok c6df) ∧
    (0 < c6df.rows.length) ∧
    (∀ s : String, (c6df.rows.getD 0 []).getD 9 Cell.nan ≠ Cell.str s) ∧
    (colIsNumeric ["1.5", "abc"] = false) ∧
    ("abc".isEmpty = false) ∧
    (mkCell (colIsNumeric ["1.5", "abc"]) "abc" = Cell.str "abc") :=
  ⟨rfl, by decide,
   hist_numeric_C6_amended.1 "TCS" c6body c6df rfl 0 (by decide),
   rfl, rfl,
   hist_numeric_C6_amended.2.1 ["1.5", "abc"] rfl "abc"
     (by decide) rfl⟩

end NseApi
